import Mathlib

/-!
# Verification of the sBTC Appleseed x402 verifier

A shallow embedding of the core of the `sbtc-appleseed` repository
(protocol probe, payment executor, monitor lifecycle) as executable Lean
definitions, together with theorems settling the specification claims.

Network effects (fetch, sleep, SDK calls) are modelled by explicit
oracles: a `World` structure supplies the outcome of each external call,
and every flow returns, next to its `PayResult`, a `FlowTrace` recording
how many external calls of each kind were made.  JavaScript-specific
semantics (truthiness, `parseInt`, `String(...)` coercion, `||`
defaulting) are embedded by dedicated helper functions.
-/

namespace Appleseed

/-! ## JavaScript semantics helpers -/

/-- JS truthiness of an optional string: `undefined`/`null` and `""` are falsy. -/
def jsTruthyStr : Option String → Bool
  | none => false
  | some s => s ≠ ""

/-- JS `a || b` on optional strings: return `a` when truthy, else `b`. -/
def jsOrStr (a : Option String) (b : String) : String :=
  match a with
  | some s => if s ≠ "" then s else b
  | none => b

/-- JS `String.prototype.includes`: substring containment. -/
def strIncludes (s pat : String) : Bool :=
  decide (pat.toList <:+: s.toList)

/-- JS `String.prototype.startsWith`: prefix test. -/
def jsStartsWith (s pre : String) : Bool :=
  decide (pre.toList <+: s.toList)

/-- JS `String.prototype.toLowerCase` (character-wise, as in
`String.toLower`, but by structural recursion so that it evaluates). -/
def jsToLower (s : String) : String :=
  String.mk (s.toList.map Char.toLower)

/-- Splitting a character list at every occurrence of `c`. -/
def splitOnChar (c : Char) : List Char → List (List Char)
  | [] => [[]]
  | x :: rest =>
    let r := splitOnChar c rest
    if x = c then [] :: r
    else
      match r with
      | [] => [[x]]
      | h :: t => (x :: h) :: t

/-- JS `String.prototype.split` with a single-character separator (the
only form the source uses: `split(":")`, `split(".")`). -/
def jsSplitChar (s : String) (c : Char) : List String :=
  (splitOnChar c s.toList).map String.mk

/-- JS `parseInt(s, 10)`: skip leading whitespace, optional sign, then the
longest prefix of decimal digits; `none` models `NaN` (no digits found). -/
def parseIntJs (s : String) : Option Int :=
  let cs := s.toList.dropWhile fun c => c = ' ' ∨ c = '\t' ∨ c = '\n' ∨ c = '\r'
  let signNeg : Bool × List Char :=
    match cs with
    | '-' :: rest => (true, rest)
    | '+' :: rest => (false, rest)
    | _ => (false, cs)
  let ds := signNeg.2.takeWhile Char.isDigit
  if ds.isEmpty then none
  else
    let n : Nat := ds.foldl (fun acc c => acc * 10 + (c.toNat - 48)) 0
    some (if signNeg.1 then -(n : Int) else (n : Int))

/-- JS `x > c` where `x` may be `NaN` (modelled as `none`): any comparison
with `NaN` is false. -/
def jsGt (x : Option Int) (c : Int) : Bool :=
  match x with
  | none => false
  | some n => n > c

/-! ## Broadcast with retry (`broadcastWithRetry` in `src/config.ts`)

The broadcast function passed to `broadcastWithRetry` is modelled as an
oracle `fn : Nat → BroadcastOutcome` giving the outcome of its `i`-th
invocation: either a resolved `{txid, error?, reason?}` object or a
thrown exception. -/

/-- Result object of `broadcastTransaction` as consumed by the retry loop. -/
structure BroadcastResult where
  txid : String
  error : Option String
  reason : Option String
  deriving Repr, DecidableEq

/-- One invocation of the broadcast function either resolves or throws. -/
inductive BroadcastOutcome where
  | ok (r : BroadcastResult)
  | exn (msg : String)
  deriving Repr, DecidableEq

/-- Trace of one `broadcastWithRetry` run: final result, number of times the
broadcast function was invoked, and the waits performed before retries. -/
structure RetryTrace where
  result : BroadcastResult
  calls : Nat
  waits : List Nat
  deriving Repr, DecidableEq

/-- Retry schedule of `broadcastWithRetry`: `const delays = [0, 5000, 15000]`. -/
def retryDelays : List Nat := [0, 5000, 15000]

/-- Permanent-error classification: the fixed markers checked against
`String(lastResult.reason || "")`. -/
def isPermanentReason (reason : String) : Bool :=
  strIncludes reason "NotEnoughFunds" ||
  strIncludes reason "NoSuchContract" ||
  strIncludes reason "BadFunctionArgument"

/-- The loop body of `broadcastWithRetry`, recursing over the remaining
delay schedule.  `i` is the index of the next attempt, `last` the last
observed result, `calls` and `waits` the trace so far. -/
def bwrGo (fn : Nat → BroadcastOutcome) (i : Nat) (last : BroadcastResult)
    (calls : Nat) (waits : List Nat) : List Nat → RetryTrace
  | [] => ⟨last, calls, waits⟩
  | d :: ds =>
    let waits := if d > 0 then waits ++ [d] else waits
    match fn i with
    | .ok r =>
      if ¬ jsTruthyStr r.error then ⟨r, calls + 1, waits⟩
      else if isPermanentReason (r.reason.getD "") then ⟨r, calls + 1, waits⟩
      else bwrGo fn (i + 1) r (calls + 1) waits ds
    | .exn msg => bwrGo fn (i + 1) ⟨"", some msg, none⟩ (calls + 1) waits ds

/-- `broadcastWithRetry` (src/config.ts): 3 attempts (immediate, 5s, 15s);
a result with no (truthy) error returns immediately; a permanent-classified
error aborts without further retries; transient failures and exceptions are
retried; after exhausting the schedule the last observed result is returned. -/
def broadcastWithRetry (fn : Nat → BroadcastOutcome) : RetryTrace :=
  bwrGo fn 0 ⟨"", some "No broadcast attempted", none⟩ 0 [] retryDelays

/-! ## JSON values

JSON numbers are modelled as integers (the amounts and prices this
program inspects are integral).  `undefined` is represented by `Option`:
a missing object field is `none`. -/

/-- A parsed JSON value. -/
inductive Json where
  | null
  | bool (b : Bool)
  | num (n : Int)
  | str (s : String)
  | arr (xs : List Json)
  | obj (fields : List (String × Json))

namespace Json

/-- JS `v === null`. -/
def isNull : Json → Bool
  | null => true
  | _ => false

/-- JS member access `o.key` on a parsed JSON value: `none` models
`undefined` (non-objects have no string-keyed fields we inspect). -/
def getField : Json → String → Option Json
  | obj fields, key => (fields.find? fun f => f.1 = key).map Prod.snd
  | _, _ => none

/-- JS truthiness of a JSON value. -/
def jsTruthy : Json → Bool
  | null => false
  | bool b => b
  | num n => n ≠ 0
  | str s => s ≠ ""
  | arr _ => true
  | obj _ => true

/-- JS `typeof v === "object"` (true for objects, arrays and `null`). -/
def typeofObject : Json → Bool
  | obj _ => true
  | arr _ => true
  | null => true
  | _ => false

mutual

/-- JS `String(v)` coercion of a JSON value. -/
def jsToString : Json → String
  | null => "null"
  | bool b => if b then "true" else "false"
  | num n => toString n
  | str s => s
  | arr xs => String.intercalate "," (arrElems xs)
  | obj _ => "[object Object]"

/-- Elements of an array under `Array.prototype.toString` (`join(",")`,
with `null` elements rendered as the empty string). -/
def arrElems : List Json → List String
  | [] => []
  | null :: rest => "" :: arrElems rest
  | x :: rest => jsToString x :: arrElems rest

end

end Json

/-- JS `String(o.key || dflt)`: the field's string coercion when the field
is present and truthy, else the (string) default. -/
def strField (j : Json) (key : String) (dflt : String) : String :=
  match j.getField key with
  | some v => if v.jsTruthy then v.jsToString else dflt
  | none => dflt

/-! ## Probe data model (`src/types.ts`) -/

/-- Normalized v1 payment request (`PaymentRequiredV1`). -/
structure PaymentRequiredV1 where
  maxAmountRequired : String
  resource : String
  payTo : String
  network : String
  nonce : String
  expiresAt : String
  tokenType : String
  deriving Repr, DecidableEq

/-- One option of a v2 `accepts` list (`AcceptOption`); the optional
`extra` sub-object is flattened into its two inspected fields. -/
structure AcceptOption where
  scheme : Option String
  network : String
  asset : String
  amount : String
  payTo : String
  maxTimeoutSeconds : Option Int
  extraFacilitator : Option String
  extraTokenType : Option String
  deriving Repr, DecidableEq

/-- Contract-call payment subtype detected by `parseV1`. -/
structure ContractCallPayment where
  contractAddress : String
  contractName : String
  functionName : String
  /-- `parseInt(amount, 10)`; `none` models `NaN`. -/
  price : Option Int
  deriving Repr, DecidableEq

/-- The original parsed object kept in `SbtcPaymentOption.raw` for the SDK. -/
inductive RawReq where
  | v1 (r : PaymentRequiredV1)
  | v2 (a : AcceptOption)
  deriving Repr, DecidableEq

/-- Normalized payment option selected by the probe (`SbtcPaymentOption`). -/
structure SbtcPaymentOption where
  version : String
  amount : String
  payTo : String
  network : String
  facilitatorUrl : String
  tokenType : String
  raw : RawReq
  contractCall : Option ContractCallPayment := none
  deriving Repr, DecidableEq

/-- Probe outcome (`ProbeResult`); the raw 402 body is not carried since no
claim inspects it. -/
structure ProbeResult where
  success : Bool
  version : Option String
  sbtcOption : Option SbtcPaymentOption
  allAccepts : Option (List AcceptOption)
  httpStatus : Nat
  error : Option String := none
  deriving Repr, DecidableEq

/-! ## Protocol probe (`probe.ts`) -/

/-- `STACKS_NETWORK_PREFIXES` constant. -/
def STACKS_NETWORK_PREFIXES : List String := ["stacks:1", "stacks:2147483648"]

/-- `SBTC_IDENTIFIERS` constant. -/
def SBTC_IDENTIFIERS : List String :=
  ["sbtc", "token-sbtc", "SP3K8BC0PPEVCV7NZ6QSRWPQ2JE9E5B6N3PA0KBR9"]

/-- `opt.extra?.tokenType?.toLowerCase().includes(pat)` with optional
chaining: `undefined` short-circuits to falsy. -/
def optLowerIncludes (o : Option String) (pat : String) : Bool :=
  match o with
  | some s => strIncludes (jsToLower s) pat
  | none => false

/-- Per-option test of the first selection loop of `findSbtcAccept`: the
`isStacks && isSbtc` condition (chain prefix before the colon; asset or
extra token type containing an sBTC identifier, case-insensitively). -/
def loop1Cond (opt : AcceptOption) : Bool :=
  (STACKS_NETWORK_PREFIXES.any fun p =>
    jsStartsWith opt.network ((jsSplitChar p ':').headD "")) &&
  (SBTC_IDENTIFIERS.any fun id =>
    strIncludes (jsToLower opt.asset) id || optLowerIncludes opt.extraTokenType "sbtc")

/-- Per-option test of the second selection loop of `findSbtcAccept`: any
Stacks option. -/
def loop2Cond (opt : AcceptOption) : Bool :=
  STACKS_NETWORK_PREFIXES.any fun p =>
    opt.network = p || jsStartsWith opt.network "stacks:"

/-- First selection loop of `findSbtcAccept`: explicit sBTC on Stacks. -/
def findSbtcLoop1 : List AcceptOption → Option AcceptOption
  | [] => none
  | opt :: rest => if loop1Cond opt then some opt else findSbtcLoop1 rest

/-- Second selection loop of `findSbtcAccept`: any Stacks option. -/
def findSbtcLoop2 : List AcceptOption → Option AcceptOption
  | [] => none
  | opt :: rest => if loop2Cond opt then some opt else findSbtcLoop2 rest

/-- `findSbtcAccept` (probe module): prefer an sBTC-on-Stacks option, else
fall back to the first Stacks option, else `null`. -/
def findSbtcAccept (accepts : List AcceptOption) : Option AcceptOption :=
  match findSbtcLoop1 accepts with
  | some opt => some opt
  | none => findSbtcLoop2 accepts

/-- `parseV2` (probe module), over the decoded `accepts` list
(`body.accepts || []` is modelled by the `Option`). -/
def parseV2 (accepts? : Option (List AcceptOption)) : ProbeResult :=
  let accepts := accepts?.getD []
  let sbtcOption := findSbtcAccept accepts
  { success := true
    version := some "v2"
    sbtcOption := sbtcOption.map fun opt =>
      { version := "v2"
        amount := opt.amount
        payTo := opt.payTo
        network := opt.network
        facilitatorUrl := jsOrStr opt.extraFacilitator "https://facilitator.stacksx402.com"
        tokenType := jsOrStr opt.extraTokenType "sBTC"
        raw := .v2 opt }
    allAccepts := some accepts
    httpStatus := 402
    error := if sbtcOption.isSome then none
             else some "402 returned but sBTC not in accepted payments" }

/-- `isV2` (probe module): an object carrying `x402Version === 2` or an
array-valued `accepts` field. -/
def isV2 (body : Json) : Bool :=
  if ¬ body.typeofObject || body.isNull then false
  else
    (match body.getField "x402Version" with
     | some (Json.num n) => n == 2
     | _ => false) ||
    (match body.getField "accepts" with
     | some (Json.arr _) => true
     | _ => false)

/-- `parseV1` (probe module): normalize the two known v1 body shapes into
one requirement record, detecting the contract-call subtype. -/
def parseV1 (body : Json) : ProbeResult :=
  if ¬ body.typeofObject || body.isNull then
    { success := false
      version := some "v1"
      sbtcOption := none
      allAccepts := none
      httpStatus := 402
      error := some "402 body is not a valid v1 payment request" }
  else
    let payment? : Option Json :=
      match body.getField "payment" with
      | some p => if p.jsTruthy && p.typeofObject then some p else none
      | none => none
    let fields :
        String × String × String × String × String × String × Option ContractCallPayment :=
      match payment? with
      | some p =>
        let amount := strField p "price" "0"
        let payTo := strField p "recipient" ""
        let tokenType := strField p "token" "STX"
        let network := strField p "network" "mainnet"
        let nonce := strField body "nonce" ""
        let expiresAt := strField body "expiresAt" ""
        let contractCall : Option ContractCallPayment :=
          match p.getField "contract", p.getField "function" with
          | some (Json.str c), some (Json.str f) =>
            let parts := jsSplitChar c '.'
            if parts.length = 2 then
              some { contractAddress := parts.headD ""
                     contractName := (parts.getD 1 "")
                     functionName := f
                     price := parseIntJs amount }
            else none
          | _, _ => none
        (amount, payTo, tokenType, network, nonce, expiresAt, contractCall)
      | none =>
        (strField body "maxAmountRequired" "0",
         strField body "payTo" "",
         strField body "tokenType" "STX",
         strField body "network" "mainnet",
         strField body "nonce" "",
         strField body "expiresAt" "",
         none)
    let amount := fields.1
    let payTo := fields.2.1
    let tokenType := fields.2.2.1
    let network := fields.2.2.2.1
    let nonce := fields.2.2.2.2.1
    let expiresAt := fields.2.2.2.2.2.1
    let contractCall := fields.2.2.2.2.2.2
    let networkId := if network = "mainnet" then "stacks:1" else "stacks:2147483648"
    let normalized : PaymentRequiredV1 :=
      { maxAmountRequired := amount
        resource := strField body "resource" ""
        payTo := payTo
        network := network
        nonce := nonce
        expiresAt := expiresAt
        tokenType := tokenType }
    let accept : AcceptOption :=
      { scheme := some "exact"
        network := networkId
        asset := tokenType
        amount := amount
        payTo := payTo
        maxTimeoutSeconds := none
        extraFacilitator := none
        extraTokenType := some tokenType }
    { success := true
      version := some "v1"
      sbtcOption := some
        { version := "v1"
          amount := amount
          payTo := payTo
          network := networkId
          facilitatorUrl := "https://facilitator.stacksx402.com"
          tokenType := tokenType
          raw := .v1 normalized
          contractCall := contractCall }
      allAccepts := some [accept]
      httpStatus := 402
      error := none }

/-! ## Payment executor (`src/pay.ts` / `src/config.ts` pay module)

External effects are supplied by a `World` oracle: the signing SDK
outcome, the direct broadcast POST response, the `broadcastTransaction`
outcomes for the retrying flows, the status-poll outcomes and the
endpoint-replay responses, each indexed by invocation count.  `bodyJson`
is the result of `JSON.parse` on the response body, supplied by the
environment (`none` when parsing throws). -/

/-- Effective configuration fields used by the executor (`Config`);
fields feeding only opaque SDK calls (fee multiplier, db path, telegram)
are not modelled. -/
structure Config where
  privateKey : String
  network : String
  facilitatorUrl : String
  maxSbtcPerVerify : Int
  deriving Repr, DecidableEq

/-- Outcome of `client.signPayment`. -/
structure SignResult where
  success : Bool
  signedTransaction : Option String
  error : Option String
  deriving Repr, DecidableEq

/-- An HTTP response as observed by the flows. -/
structure HttpResponse where
  status : Nat
  body : String
  /-- `JSON.parse(body)` outcome (`none`: the body is not valid JSON). -/
  bodyJson : Option Json
  headers : List (String × String)

/-- Outcome of one confirmation-status poll
(`GET /extended/v1/tx/{txId}`). -/
inductive PollOutcome where
  | ok (txStatus : Option String)
  | notOk
  | exn
  deriving Repr, DecidableEq

/-- Oracle for all external effects of one payment attempt. -/
structure World where
  sign : SignResult
  broadcastHttp : HttpResponse
  broadcastFn : Nat → BroadcastOutcome
  poll : Nat → PollOutcome
  replay : Nat → HttpResponse

/-- Trace of the external calls made by one payment attempt, plus the
final value of the local `confirmed` flag of the polling loops. -/
structure FlowTrace where
  signs : Nat := 0
  broadcastPosts : Nat := 0
  broadcastCalls : Nat := 0
  feeQueries : Nat := 0
  polls : Nat := 0
  replays : Nat := 0
  waits : List Nat := []
  confirmedFlag : Bool := false
  deriving Repr, DecidableEq

/-- The empty trace: no external call of any kind was made. -/
def FlowTrace.empty : FlowTrace := {}

/-- `PayResult` (src/types.ts). -/
structure PayResult where
  success : Bool
  resourceDelivered : Bool
  httpStatus : Nat
  bodyLength : Nat
  bodyPreview : String
  txId : Option String
  amount : String
  recipient : String
  error : Option String := none
  deriving Repr, DecidableEq

/-- Case-insensitive `res.headers.get(name)`. -/
def headerGet (r : HttpResponse) (name : String) : Option String :=
  (r.headers.find? fun h => jsToLower h.1 = jsToLower name).map Prod.snd

/-- JS `a || b` on optional strings, keeping the option. -/
def jsOrOptStr (a b : Option String) : Option String :=
  if jsTruthyStr a then a else b

/-- A truthy object field rendered as a string, else `none`
(one step of `parsed.txId || parsed.tx_id || ...`). -/
def truthyField (j : Json) (k : String) : Option String :=
  match j.getField k with
  | some v => if v.jsTruthy then some v.jsToString else none
  | none => none

/-- `buildPayResult` (pay module): delivery requires a 2xx status and a
non-empty body; a settlement tx id is searched in the response headers
first, then in the body fields `txId`/`tx_id`/`transactionId`. -/
def buildPayResult (res : HttpResponse) (option : SbtcPaymentOption) : PayResult :=
  let body := res.body
  let delivered := decide (200 ≤ res.status) && decide (res.status < 300) &&
    decide (0 < body.length)
  let txHeader := jsOrOptStr (headerGet res "x-payment-txid")
    (headerGet res "x-transaction-id")
  let txId :=
    if jsTruthyStr txHeader then txHeader
    else
      match res.bodyJson with
      | some parsed =>
        match truthyField parsed "txId" with
        | some s => some s
        | none =>
          match truthyField parsed "tx_id" with
          | some s => some s
          | none => truthyField parsed "transactionId"
      | none => none
  { success := delivered
    resourceDelivered := delivered
    httpStatus := res.status
    bodyLength := body.length
    bodyPreview := body.take 200
    txId := txId
    amount := option.amount
    recipient := option.payTo
    error := if delivered then none
             else some ("HTTP " ++ toString res.status ++ ": " ++ body.take 200) }

/-- The `if (txId && !txId.startsWith("0x")) txId = "0x" + txId` step. -/
def ensureHexPrefix (t : String) : String :=
  if t ≠ "" ∧ jsStartsWith t "0x" = false then "0x" ++ t else t

/-- A failure `PayResult` with zeroed HTTP fields, as constructed on the
signing/broadcast/cap error paths. -/
def failResult (option : SbtcPaymentOption) (recipient : String) (err : String) :
    PayResult :=
  { success := false
    resourceDelivered := false
    httpStatus := 0
    bodyLength := 0
    bodyPreview := ""
    txId := none
    amount := option.amount
    recipient := recipient
    error := some err }

/-- The broadcast tx id obtained from the direct Hiro POST of the simple
v1 flow: on a 2xx response, the body with quotes stripped and trimmed; on
a failure, the `txid` field of the JSON error body when present and
truthy (the transaction was already broadcast); else none. -/
def v1BroadcastTxId (br : HttpResponse) : Option String :=
  if decide (200 ≤ br.status) && decide (br.status < 300) then
    some ((br.body.replace "\"" "").trim)
  else
    match br.bodyJson with
    | some j => truthyField j "txid"
    | none => none

/-- The 12-attempt confirmation loop of the simple v1 flow: each attempt
sleeps then polls; only status `"success"` stops the loop as confirmed;
pending, other statuses, non-2xx responses and read errors all continue.
Returns the confirmed flag and the number of polls made. -/
def payV1PollLoop (poll : Nat → PollOutcome) : Nat → Nat → Bool × Nat
  | 0, idx => (false, idx)
  | rem + 1, idx =>
    match poll idx with
    | .ok st =>
      if st = some "success" then (true, idx + 1)
      else payV1PollLoop poll rem (idx + 1)
    | _ => payV1PollLoop poll rem (idx + 1)

/-- The simple-transfer v1 flow (`payV1` after its two routing checks):
sign, broadcast via a direct POST, poll up to 12 times, then replay the
request with the `X-Payment` header and build the result, overwriting its
tx id with the broadcast id. -/
def payV1Simple (option : SbtcPaymentOption) (w : World) : PayResult × FlowTrace :=
  if ¬ (w.sign.success && jsTruthyStr w.sign.signedTransaction) then
    (failResult option option.payTo
      ("Signing failed: " ++ jsOrStr w.sign.error "unknown error"),
     { signs := 1 })
  else
    match v1BroadcastTxId w.broadcastHttp with
    | none =>
      let br := w.broadcastHttp
      let msg :=
        match br.bodyJson with
        | some _ => "Broadcast failed: " ++ br.body.take 200
        | none => "Broadcast failed (" ++ toString br.status ++ "): " ++
            br.body.take 200
      (failResult option option.payTo msg, { signs := 1, broadcastPosts := 1 })
    | some txId0 =>
      let txId := ensureHexPrefix txId0
      let loop := payV1PollLoop w.poll 12 0
      let result := { buildPayResult (w.replay 0) option with txId := some txId }
      (result,
       { signs := 1, broadcastPosts := 1, polls := loop.2, replays := 1,
         confirmedFlag := loop.1 })

/-- The v2 flow (`payV2`): sign, then a single GET carrying the
`Payment-Signature` envelope; the result is `buildPayResult` unchanged. -/
def payV2 (option : SbtcPaymentOption) (w : World) : PayResult × FlowTrace :=
  if ¬ (w.sign.success && jsTruthyStr w.sign.signedTransaction) then
    (failResult option option.payTo
      ("Signing failed: " ++ jsOrStr w.sign.error "unknown error"),
     { signs := 1 })
  else
    (buildPayResult (w.replay 0) option, { signs := 1, replays := 1 })

/-- The 36-iteration loop of `awaitConfirmationAndRetry`.  Arguments:
remaining iterations, `confirmed`, last replay response (`res`), poll
count, replay count.  Returns the final `(res, confirmed, polls,
replays)`.  While unconfirmed each iteration polls once: `"success"`
confirms and falls through to the replay in the same iteration; anything
else continues.  Once confirmed each iteration replays: a 2xx breaks, a
402/403 continues, anything else breaks. -/
def acrLoop (w : World) : Nat → Bool → Option HttpResponse → Nat → Nat →
    Option HttpResponse × Bool × Nat × Nat
  | 0, confirmed, res, pollIdx, replayIdx => (res, confirmed, pollIdx, replayIdx)
  | rem + 1, confirmed, res, pollIdx, replayIdx =>
    if confirmed then
      let r := w.replay replayIdx
      if decide (200 ≤ r.status) && decide (r.status < 300) then
        (some r, true, pollIdx, replayIdx + 1)
      else if r.status == 403 || r.status == 402 then
        acrLoop w rem true (some r) pollIdx (replayIdx + 1)
      else (some r, true, pollIdx, replayIdx + 1)
    else
      match w.poll pollIdx with
      | .ok st =>
        if st = some "success" then
          let r := w.replay replayIdx
          if decide (200 ≤ r.status) && decide (r.status < 300) then
            (some r, true, pollIdx + 1, replayIdx + 1)
          else if r.status == 403 || r.status == 402 then
            acrLoop w rem true (some r) (pollIdx + 1) (replayIdx + 1)
          else (some r, true, pollIdx + 1, replayIdx + 1)
        else acrLoop w rem false res (pollIdx + 1) replayIdx
      | _ => acrLoop w rem false res (pollIdx + 1) replayIdx

/-- `awaitConfirmationAndRetry` (src/config.ts): run the 36-iteration
poll/replay loop; if no replay response was ever obtained, fail with
"TX never confirmed within timeout"; otherwise build the result from the
last replay response, overwriting its tx id with the broadcast id. -/
def awaitConfirmationAndRetry (txId : String) (option : SbtcPaymentOption)
    (w : World) : PayResult × FlowTrace :=
  let st := acrLoop w 36 false none 0 0
  let trace : FlowTrace :=
    { polls := st.2.2.1, replays := st.2.2.2, confirmedFlag := st.2.1 }
  match st.1 with
  | none =>
    ({ success := false
       resourceDelivered := false
       httpStatus := 0
       bodyLength := 0
       bodyPreview := ""
       txId := some txId
       amount := option.amount
       recipient := option.payTo
       error := some "TX never confirmed within timeout" }, trace)
  | some r => ({ buildPayResult r option with txId := some txId }, trace)

/-- Default contract-call record backing the source's `option.contractCall!`
non-null assertion. -/
def ContractCallPayment.dflt : ContractCallPayment :=
  { contractAddress := "", contractName := "", functionName := "", price := none }

/-- `payV1ContractCall`: fee estimate, contract-call broadcast with retry
(a truthy error aborts), then shared confirmation/retry.  The transaction
construction itself (post-conditions, fee arithmetic) feeds only the
opaque broadcast call. -/
def payV1ContractCall (option : SbtcPaymentOption) (w : World) :
    PayResult × FlowTrace :=
  let cc := option.contractCall.getD ContractCallPayment.dflt
  let rt := broadcastWithRetry w.broadcastFn
  if jsTruthyStr rt.result.error then
    (failResult option (cc.contractAddress ++ "." ++ cc.contractName)
      ("Broadcast failed: " ++ rt.result.error.getD "" ++ " - " ++
        rt.result.reason.getD ""),
     { feeQueries := 1, broadcastCalls := rt.calls, waits := rt.waits })
  else
    let txId := ensureHexPrefix rt.result.txid
    let acr := awaitConfirmationAndRetry txId option w
    (acr.1,
     { feeQueries := 1, broadcastCalls := rt.calls, waits := rt.waits,
       polls := acr.2.polls, replays := acr.2.replays,
       confirmedFlag := acr.2.confirmedFlag })

/-- `payV1Sbtc`: SIP-010 transfer flow; same broadcast-with-retry and
shared confirmation/retry shape as the contract-call flow. -/
def payV1Sbtc (option : SbtcPaymentOption) (w : World) : PayResult × FlowTrace :=
  let rt := broadcastWithRetry w.broadcastFn
  if jsTruthyStr rt.result.error then
    (failResult option option.payTo
      ("Broadcast failed: " ++ rt.result.error.getD "" ++ " - " ++
        rt.result.reason.getD ""),
     { feeQueries := 1, broadcastCalls := rt.calls, waits := rt.waits })
  else
    let txId := ensureHexPrefix rt.result.txid
    let acr := awaitConfirmationAndRetry txId option w
    (acr.1,
     { feeQueries := 1, broadcastCalls := rt.calls, waits := rt.waits,
       polls := acr.2.polls, replays := acr.2.replays,
       confirmedFlag := acr.2.confirmedFlag })

/-- `isSbtcToken` (src/config.ts). -/
def isSbtcToken (tokenType : String) : Bool :=
  let t := jsToLower tokenType
  t == "sbtc" || strIncludes t "sbtc" || strIncludes t "token-sbtc"

/-- `payV1` routing: contract-call flow when a contract reference was
detected, sBTC SIP-010 flow when the token type matches sBTC, else the
simple transfer flow. -/
def payV1 (option : SbtcPaymentOption) (w : World) : PayResult × FlowTrace :=
  if option.contractCall.isSome then payV1ContractCall option w
  else if isSbtcToken option.tokenType then payV1Sbtc option w
  else payV1Simple option w

/-- `payEndpoint` (src/pay.ts, src/config.ts): the cap guard refuses before
any external call when `parseInt(option.amount, 10)` exceeds the configured
maximum; otherwise route by protocol version.  The surrounding
`try/catch` is not represented: every external failure is already encoded
as data in the `World` oracle, so the embedded flows do not throw. -/
def payEndpoint (option : SbtcPaymentOption) (config : Config) (w : World) :
    PayResult × FlowTrace :=
  match parseIntJs option.amount with
  | some amountNum =>
    if amountNum > config.maxSbtcPerVerify then
      (failResult option option.payTo
        ("Payment amount " ++ toString amountNum ++ " sats exceeds max " ++
          toString config.maxSbtcPerVerify ++ " sats"),
       FlowTrace.empty)
    else if option.version == "v1" then payV1 option w else payV2 option w
  | none =>
    if option.version == "v1" then payV1 option w else payV2 option w

/-! ## Monitor and lifecycle (`src/monitor.ts`)

The ledger row of one endpoint is carried explicitly; `monitorStep` is
the per-endpoint body of `runMonitorPass` (lines 48-81) with the
`updateEndpoint` write applied to the record, and `checkEndpoint` is the
probe-then-pay check with its `total_spent` update.  Columns not touched
by these functions (ids, repo/issue/pr links, timestamps of creation)
are omitted. -/

/-- A ledger row (`Endpoint` in db.ts) restricted to the fields the
monitor reads or writes; `total_spent` is `Option Int` so that the `NaN`
produced by adding an unparsable amount propagates (`none`). -/
structure Endpoint where
  url : String
  status : String
  token_type : String := "STX"
  last_check : Option String := none
  last_result : Option String := none
  total_spent : Option Int := some 0
  deriving Repr, DecidableEq

/-- `ep.total_spent + parseInt(amount || "0", 10)`: `none` models the
`NaN` resulting from an unparsable amount. -/
def spendAdd (total : Option Int) (amount : String) : Option Int :=
  match total, parseIntJs (jsOrStr (some amount) "0") with
  | some t, some n => some (t + n)
  | _, _ => none

/-- `checkEndpoint` (src/monitor.ts): probe; on probe failure the check
fails; in dry-run or without a key, probe validity alone decides; with an
sBTC option, pay and — on success — add the paid amount to
`total_spent`; a valid probe without an sBTC option still passes. -/
def checkEndpoint (ep : Endpoint) (config : Config) (dryRun : Bool)
    (probeRes : ProbeResult) (w : World) : Bool × Endpoint :=
  if ¬ probeRes.success then (false, ep)
  else if dryRun || ¬ jsTruthyStr (some config.privateKey) then
    (probeRes.success, ep)
  else
    match probeRes.sbtcOption with
    | some opt =>
      let payResult := (payEndpoint opt config w).1
      let ep' :=
        if payResult.success then
          { ep with total_spent := spendAdd ep.total_spent payResult.amount }
        else ep
      (payResult.success, ep')
    | none => (true, ep)

/-- Notification/counter events emitted for one endpoint by a monitor
pass. -/
structure MonitorEvents where
  recovered : Bool
  newlyBroken : Bool
  alertDown : Bool
  alertRecovered : Bool
  deriving Repr, DecidableEq

/-- Per-endpoint body of `runMonitorPass`: stamp last-check/last-result,
set the lifecycle state from the check outcome, and emit
recovered/newly-broken events exactly on the corresponding transitions. -/
def monitorStep (ep : Endpoint) (now : String) (passed : Bool) :
    Endpoint × MonitorEvents :=
  let wasBroken := ep.status == "broken"
  if passed then
    ({ ep with
        status := "monitoring"
        last_check := some now
        last_result := some "passed" },
     { recovered := wasBroken
       newlyBroken := false
       alertDown := false
       alertRecovered := wasBroken })
  else
    ({ ep with
        status := "broken"
        last_check := some now
        last_result := some "failed" },
     { recovered := false
       newlyBroken := !wasBroken
       alertDown := !wasBroken
       alertRecovered := false })

/-- Iterated monitor rechecks of one endpoint: fold `monitorStep` over a
list of (timestamp, outcome) pairs, collecting the emitted events. -/
def runChecks (ep : Endpoint) : List (String × Bool) → Endpoint × List MonitorEvents
  | [] => (ep, [])
  | (now, passed) :: rest =>
    let s := monitorStep ep now passed
    let r := runChecks s.1 rest
    (r.1, s.2 :: r.2)

/-! ## Concrete fixtures used by witnesses and counterexamples -/

/-- A v1 payment option with a 5000-sat amount. -/
def optCap : SbtcPaymentOption :=
  { version := "v1"
    amount := "5000"
    payTo := "SPX"
    network := "stacks:1"
    facilitatorUrl := "f"
    tokenType := "STX"
    raw := .v1 ⟨"5000", "/x", "SPX", "mainnet", "1", "2099-01-01", "STX"⟩
    contractCall := none }

/-- A configuration with a 1000-sat cap. -/
def cfgCap : Config :=
  { privateKey := "k"
    network := "mainnet"
    facilitatorUrl := "f"
    maxSbtcPerVerify := 1000 }

/-- A benign world: signing succeeds, broadcast succeeds, polls confirm,
the replay returns 200 with a non-empty body. -/
def worldDflt : World :=
  { sign := { success := true, signedTransaction := some "ab", error := none }
    broadcastHttp := { status := 200, body := "\"abc\"", bodyJson := none, headers := [] }
    broadcastFn := fun _ => .ok { txid := "abc", error := none, reason := none }
    poll := fun _ => .ok (some "success")
    replay := fun _ => { status := 200, body := "ok", bodyJson := none, headers := [] } }

/-! ## Claim theorems -/

/-- C1: for every payment requirement with amount `A` and configured cap
`C`, if `A > C` then `payEndpoint` returns a refusal result
(`success = false`, `txId = null`, error naming the cap) before any
external call is made: the flow trace is empty — zero broadcasts, zero
signing attempts. -/
theorem payEndpoint_cap_guard_refuses (option : SbtcPaymentOption) (config : Config)
    (w : World) (A : Int) (hA : parseIntJs option.amount = some A)
    (hgt : A > config.maxSbtcPerVerify) :
    payEndpoint option config w =
      (failResult option option.payTo
        ("Payment amount " ++ toString A ++ " sats exceeds max " ++
          toString config.maxSbtcPerVerify ++ " sats"),
       FlowTrace.empty) ∧
    (payEndpoint option config w).1.success = false ∧
    (payEndpoint option config w).1.txId = none ∧
    (payEndpoint option config w).2 = FlowTrace.empty := by
  refine ⟨?_, ?_, ?_, ?_⟩ <;> simp [payEndpoint, hA, hgt, failResult]

/-- Witness for C1 at amount 5000, cap 1000, in a world where every
external call would succeed: the refusal still carries no tx id and makes
no external call. -/
theorem payEndpoint_cap_guard_refuses_witness :
    (payEndpoint optCap cfgCap worldDflt).1.success = false ∧
    (payEndpoint optCap cfgCap worldDflt).1.txId = none ∧
    (payEndpoint optCap cfgCap worldDflt).2 = FlowTrace.empty := by
  have h := payEndpoint_cap_guard_refuses optCap cfgCap worldDflt 5000
    (by decide) (by decide)
  exact ⟨h.2.1, h.2.2.1, h.2.2.2⟩

/-- C2: a broadcast function whose first call resolves to a
permanent-classified error (insufficient funds, unknown contract, bad
function argument marker in its reason) is invoked exactly once, no retry
wait is performed, and that very result is returned. -/
theorem broadcastWithRetry_permanent_no_retry (fn : Nat → BroadcastOutcome)
    (r : BroadcastResult) (h0 : fn 0 = .ok r)
    (herr : jsTruthyStr r.error = true)
    (hperm : isPermanentReason (r.reason.getD "") = true) :
    broadcastWithRetry fn = ⟨r, 1, []⟩ := by
  simp [broadcastWithRetry, retryDelays, bwrGo, h0, herr, hperm]

/-- Witness for C2: a first-call `NotEnoughFunds` rejection is returned
as-is after exactly one call. -/
theorem broadcastWithRetry_permanent_no_retry_witness :
    broadcastWithRetry
        (fun _ => .ok { txid := "", error := some "rejected",
                        reason := some "NotEnoughFunds" }) =
      ⟨{ txid := "", error := some "rejected", reason := some "NotEnoughFunds" },
       1, []⟩ :=
  broadcastWithRetry_permanent_no_retry _ _ rfl (by decide) (by decide)

/-- C3: a broadcast function failing with transient errors on its first
two calls and succeeding on the third is called exactly three times, with
the first attempt immediate and the waits before the two retries equal to
the configured schedule (5s then 15s), and the successful result is
returned; a function failing transiently on all three calls is also
called three times with the same waits and its last observed error is
returned. -/
theorem broadcastWithRetry_transient_schedule (fn gn : Nat → BroadcastOutcome)
    (r0 r1 r2 s0 s1 s2 : BroadcastResult)
    (hf0 : fn 0 = .ok r0) (hf1 : fn 1 = .ok r1) (hf2 : fn 2 = .ok r2)
    (he0 : jsTruthyStr r0.error = true)
    (hp0 : isPermanentReason (r0.reason.getD "") = false)
    (he1 : jsTruthyStr r1.error = true)
    (hp1 : isPermanentReason (r1.reason.getD "") = false)
    (he2 : jsTruthyStr r2.error = false)
    (hg0 : gn 0 = .ok s0) (hg1 : gn 1 = .ok s1) (hg2 : gn 2 = .ok s2)
    (ke0 : jsTruthyStr s0.error = true)
    (kp0 : isPermanentReason (s0.reason.getD "") = false)
    (ke1 : jsTruthyStr s1.error = true)
    (kp1 : isPermanentReason (s1.reason.getD "") = false)
    (ke2 : jsTruthyStr s2.error = true)
    (kp2 : isPermanentReason (s2.reason.getD "") = false) :
    broadcastWithRetry fn = ⟨r2, 3, [5000, 15000]⟩ ∧
    broadcastWithRetry gn = ⟨s2, 3, [5000, 15000]⟩ := by
  constructor
  · simp [broadcastWithRetry, retryDelays, bwrGo, hf0, hf1, hf2, he0, hp0,
      he1, hp1, he2]
  · simp [broadcastWithRetry, retryDelays, bwrGo, hg0, hg1, hg2, ke0, kp0,
      ke1, kp1, ke2, kp2]

/-- Witness for C3: two transient timeouts then success, and three
transient timeouts, with the 5s/15s schedule. -/
theorem broadcastWithRetry_transient_schedule_witness :
    broadcastWithRetry
        (fun i => if i < 2 then
            .ok { txid := "", error := some "timeout", reason := some "ConnectionBroken" }
          else .ok { txid := "ff", error := none, reason := none }) =
      ⟨{ txid := "ff", error := none, reason := none }, 3, [5000, 15000]⟩ ∧
    broadcastWithRetry
        (fun _ => .ok { txid := "", error := some "timeout",
                        reason := some "ConnectionBroken" }) =
      ⟨{ txid := "", error := some "timeout", reason := some "ConnectionBroken" },
       3, [5000, 15000]⟩ :=
  broadcastWithRetry_transient_schedule _ _ _ _ _ _ _ _
    rfl rfl rfl (by decide) (by decide) (by decide) (by decide) (by decide)
    rfl rfl rfl (by decide) (by decide) (by decide) (by decide) (by decide)
    (by decide)

/-- A failing recheck of an already-broken endpoint emits no newly-broken
event and no down alert, and leaves the endpoint broken; hence every
member of a failing recheck sequence started from a broken endpoint is
silent. -/
theorem runChecks_broken_silent (nows : List String) :
    ∀ ep : Endpoint, ep.status = "broken" →
      (∀ e ∈ (runChecks ep (nows.map fun t => (t, false))).2,
        e.newlyBroken = false ∧ e.alertDown = false) ∧
      (runChecks ep (nows.map fun t => (t, false))).1.status = "broken" := by
  induction nows with
  | nil => intro ep h; simp [runChecks, h]
  | cons t ts ih =>
    intro ep h
    have hb : (ep.status == "broken") = true := by simp [h]
    have hstep : (monitorStep ep t false).1.status = "broken" := by
      simp [monitorStep, hb]
    refine ⟨?_, ?_⟩
    · intro e he
      simp only [List.map_cons, runChecks, List.mem_cons] at he
      rcases he with rfl | he
      · simp [monitorStep, hb]
      · exact (ih _ hstep).1 e he
    · simpa [runChecks] using (ih _ hstep).2

/-- C7: a healthy (`monitoring`/`verified`) endpoint whose recheck fails
transitions to `broken` and is counted and alerted as newly broken
exactly on that transition; every subsequent failing recheck is silent
(no newly-broken event, no down alert) and keeps the endpoint broken; a
broken endpoint that passes is reported (and alerted) as recovered. -/
theorem monitor_newly_broken_once (ep : Endpoint)
    (h : ep.status = "monitoring" ∨ ep.status = "verified")
    (now now2 : String) (nows : List String) :
    (monitorStep ep now false).1.status = "broken" ∧
    (monitorStep ep now false).2.newlyBroken = true ∧
    (monitorStep ep now false).2.alertDown = true ∧
    (∀ e ∈ (runChecks (monitorStep ep now false).1
        (nows.map fun t => (t, false))).2,
      e.newlyBroken = false ∧ e.alertDown = false) ∧
    (runChecks (monitorStep ep now false).1
        (nows.map fun t => (t, false))).1.status = "broken" ∧
    (monitorStep (monitorStep ep now false).1 now2 true).2.recovered = true ∧
    (monitorStep (monitorStep ep now false).1 now2 true).2.alertRecovered = true := by
  have hnb : (ep.status == "broken") = false := by
    rcases h with h | h <;> simp [h]
  have hstep : (monitorStep ep now false).1.status = "broken" := by
    simp [monitorStep, hnb]
  have hsil := runChecks_broken_silent nows _ hstep
  refine ⟨hstep, ?_, ?_, hsil.1, hsil.2, ?_, ?_⟩ <;>
    simp [monitorStep, hnb]

/-- A monitored endpoint used by the C7 witness. -/
def epMon : Endpoint := { url := "https://api.example.com/data", status := "monitoring" }

/-- Witness for C7: a concrete `monitoring` endpoint, one failing recheck,
two further failing rechecks, then a passing one. -/
theorem monitor_newly_broken_once_witness :
    (monitorStep epMon "t1" false).1.status = "broken" ∧
    (monitorStep epMon "t1" false).2.newlyBroken = true ∧
    (∀ e ∈ (runChecks (monitorStep epMon "t1" false).1
        ([ "t2", "t3" ].map fun t => (t, false))).2,
      e.newlyBroken = false ∧ e.alertDown = false) ∧
    (monitorStep (monitorStep epMon "t1" false).1 "t4" true).2.recovered = true := by
  have h := monitor_newly_broken_once epMon (Or.inl rfl) "t1" "t4" ["t2", "t3"]
  exact ⟨h.1, h.2.1, h.2.2.2.1, h.2.2.2.2.2.1⟩

/-- C10: every JSON object body that is not classified V2 is structurally
valid under V1 parsing, with the normalized requirement defaulting to
amount `"0"`, empty recipient, token type `"STX"` and network `"mainnet"`
(canonical id `"stacks:1"`) when the corresponding fields are absent; and
V1 parsing reports `success = false` exactly for bodies that are not
`typeof "object"` (or are `null`) — hence only for non-object JSON
bodies. -/
theorem parseV1_defaults_and_domain (fields : List (String × Json)) (j : Json)
    (_hv2 : isV2 (Json.obj fields) = false)
    (hp : (Json.obj fields).getField "payment" = none)
    (hm : (Json.obj fields).getField "maxAmountRequired" = none)
    (hpt : (Json.obj fields).getField "payTo" = none)
    (ht : (Json.obj fields).getField "tokenType" = none)
    (hn : (Json.obj fields).getField "network" = none)
    (hno : (Json.obj fields).getField "nonce" = none)
    (hex : (Json.obj fields).getField "expiresAt" = none)
    (hr : (Json.obj fields).getField "resource" = none) :
    (parseV1 (Json.obj fields)).success = true ∧
    (parseV1 (Json.obj fields)).sbtcOption = some
      { version := "v1"
        amount := "0"
        payTo := ""
        network := "stacks:1"
        facilitatorUrl := "https://facilitator.stacksx402.com"
        tokenType := "STX"
        raw := .v1 ⟨"0", "", "", "mainnet", "", "", "STX"⟩
        contractCall := none } ∧
    ((parseV1 j).success = false ↔
      (j.typeofObject = false ∨ j.isNull = true)) := by
  refine ⟨?_, ?_, ?_⟩
  · simp [parseV1, Json.typeofObject, Json.isNull]
  · simp [parseV1, Json.typeofObject, Json.isNull, hp, hm, hpt, ht, hn, hno,
      hex, hr, strField]
  · cases j <;> simp [parseV1, Json.typeofObject, Json.isNull]

/-- Witness for C10 at the object `{"foo": "bar"}` (no recognized field,
not V2) and the non-object body `"x"`. -/
theorem parseV1_defaults_and_domain_witness :
    (parseV1 (Json.obj [("foo", Json.str "bar")])).success = true ∧
    (parseV1 (Json.obj [("foo", Json.str "bar")])).sbtcOption = some
      { version := "v1"
        amount := "0"
        payTo := ""
        network := "stacks:1"
        facilitatorUrl := "https://facilitator.stacksx402.com"
        tokenType := "STX"
        raw := .v1 ⟨"0", "", "", "mainnet", "", "", "STX"⟩
        contractCall := none } ∧
    ((parseV1 (Json.str "x")).success = false ↔
      ((Json.str "x").typeofObject = false ∨ (Json.str "x").isNull = true)) :=
  parseV1_defaults_and_domain [("foo", Json.str "bar")] (Json.str "x")
    rfl rfl rfl rfl rfl rfl rfl rfl rfl

/-- The selection rule exactly as the spec states it, for comparison with
the source's `findSbtcAccept`: prefer an option on the target chain whose
asset identifier is an exact match of a known target-asset pattern, else
the first option on the target chain, else none. -/
def specFindSbtcAccept (accepts : List AcceptOption) : Option AcceptOption :=
  match accepts.find? fun o =>
      jsStartsWith o.network "stacks:" && decide (o.asset ∈ SBTC_IDENTIFIERS) with
  | some o => some o
  | none => accepts.find? fun o => jsStartsWith o.network "stacks:"

/-- First Stacks option with asset `"STX"`. -/
def optA : AcceptOption :=
  ⟨some "exact", "stacks:1", "STX", "100", "SPA", none, none, none⟩

/-- Second Stacks option with asset `"wrapped-sbtc"`: no exact match of
any known target-asset pattern, but a substring match of `"sbtc"`. -/
def optB : AcceptOption :=
  ⟨some "exact", "stacks:1", "wrapped-sbtc", "100", "SPB", none, none, none⟩

/-- Counterexample to C5: the code selects `optB`, whose asset exactly
matches no known target-asset pattern, over the earlier target-chain
option `optA`; the spec's exact-match-then-first-on-chain rule selects
`optA`.  Asset matching in the code is substring containment, not exact
match. -/
theorem findSbtcAccept_not_exact_match :
    findSbtcAccept [optA, optB] = some optB ∧
    specFindSbtcAccept [optA, optB] = some optA ∧
    optB.asset ∉ SBTC_IDENTIFIERS ∧
    optA ≠ optB := by
  refine ⟨by decide, by decide, by decide, by decide⟩

/-- The combined first-loop predicate of `findSbtcAccept`: on a network
starting with `"stacks"`, with a case-insensitive substring match of a
known sBTC identifier in the asset, or `"sbtc"` in the extra token type. -/
def sbtcSubstrMatch (opt : AcceptOption) : Bool :=
  jsStartsWith opt.network "stacks" &&
  ((SBTC_IDENTIFIERS.any fun id => strIncludes (jsToLower opt.asset) id) ||
   optLowerIncludes opt.extraTokenType "sbtc")

/-- The first-loop condition coincides with `sbtcSubstrMatch`. -/
theorem loop1Cond_eq (opt : AcceptOption) : loop1Cond opt = sbtcSubstrMatch opt := by
  have h1 : ((jsSplitChar "stacks:1" ':').headD "") = "stacks" := by decide
  have h2 : ((jsSplitChar "stacks:2147483648" ':').headD "") = "stacks" := by decide
  simp only [loop1Cond, sbtcSubstrMatch, STACKS_NETWORK_PREFIXES,
    SBTC_IDENTIFIERS, List.any_cons, List.any_nil, h1, h2]
  cases hs : jsStartsWith opt.network "stacks" <;>
    cases ha : strIncludes (jsToLower opt.asset) "sbtc" <;>
    cases hb : strIncludes (jsToLower opt.asset) "token-sbtc" <;>
    cases hc : strIncludes (jsToLower opt.asset) "SP3K8BC0PPEVCV7NZ6QSRWPQ2JE9E5B6N3PA0KBR9" <;>
    cases ht : optLowerIncludes opt.extraTokenType "sbtc" <;> rfl

/-- The second-loop condition coincides with "network starts with
`stacks:`". -/
theorem loop2Cond_eq (opt : AcceptOption) :
    loop2Cond opt = jsStartsWith opt.network "stacks:" := by
  simp only [loop2Cond, STACKS_NETWORK_PREFIXES, List.any_cons, List.any_nil]
  by_cases h1 : opt.network = "stacks:1"
  · simp [h1]; decide
  · by_cases h2 : opt.network = "stacks:2147483648"
    · simp [h2]; decide
    · simp [h1, h2]

/-- The first loop is the first match of `sbtcSubstrMatch`. -/
theorem findSbtcLoop1_eq_find (accepts : List AcceptOption) :
    findSbtcLoop1 accepts = accepts.find? sbtcSubstrMatch := by
  induction accepts with
  | nil => rfl
  | cons o rest ih =>
    simp only [findSbtcLoop1, List.find?, loop1Cond_eq]
    cases h : sbtcSubstrMatch o <;> simp [h, ih]

/-- The second loop is the first match of the Stacks-network test. -/
theorem findSbtcLoop2_eq_find (accepts : List AcceptOption) :
    findSbtcLoop2 accepts =
      accepts.find? fun o => jsStartsWith o.network "stacks:" := by
  induction accepts with
  | nil => rfl
  | cons o rest ih =>
    simp only [findSbtcLoop2, List.find?, loop2Cond_eq]
    cases h : jsStartsWith o.network "stacks:" <;> simp [h, ih]

/-- C5 (amended): for every V2 options list the probe prefers the first
option whose network starts with `"stacks"` and whose asset contains a
known sBTC identifier as a case-insensitive substring (or whose extra
token type contains `"sbtc"`); otherwise it falls back to the first
option whose network starts with `"stacks:"`; otherwise no option is
selected — and `parseV2` reports structural validity in every case. -/
theorem parseV2_selection_substring (accepts : List AcceptOption)
    (accepts? : Option (List AcceptOption)) :
    (parseV2 accepts?).success = true ∧
    findSbtcAccept accepts =
      (match accepts.find? sbtcSubstrMatch with
       | some o => some o
       | none => accepts.find? fun o => jsStartsWith o.network "stacks:") := by
  refine ⟨by simp [parseV2], ?_⟩
  rw [findSbtcAccept, findSbtcLoop1_eq_find, findSbtcLoop2_eq_find]

/-- An always-pending status oracle leaves the simple-flow poll loop
unconfirmed after consuming its whole bound. -/
theorem payV1PollLoop_pending (poll : Nat → PollOutcome)
    (h : ∀ n, poll n = .ok (some "pending")) :
    ∀ rem idx, payV1PollLoop poll rem idx = (false, idx + rem) := by
  intro rem
  induction rem with
  | zero => intro idx; simp [payV1PollLoop]
  | succ m ih =>
    intro idx
    have hi := ih (idx + 1)
    simp [payV1PollLoop, h idx, hi]
    omega

/-- An always-pending status oracle drives the shared
confirmation/replay loop through its whole bound without ever
confirming or replaying. -/
theorem acrLoop_pending (w : World) (h : ∀ n, w.poll n = .ok (some "pending")) :
    ∀ rem res pollIdx replayIdx,
      acrLoop w rem false res pollIdx replayIdx =
        (res, false, pollIdx + rem, replayIdx) := by
  intro rem
  induction rem with
  | zero => intro res pollIdx replayIdx; simp [acrLoop]
  | succ m ih =>
    intro res pollIdx replayIdx
    have hi := ih res (pollIdx + 1) replayIdx
    simp [acrLoop, h pollIdx, hi]
    omega

/-- An sBTC-token v1 payment option (routes to the SIP-010 flow). -/
def optSbtc : SbtcPaymentOption :=
  { version := "v1"
    amount := "100"
    payTo := "SPB"
    network := "stacks:1"
    facilitatorUrl := "f"
    tokenType := "sBTC"
    raw := .v1 ⟨"100", "/x", "SPB", "mainnet", "1", "2099-01-01", "sBTC"⟩
    contractCall := none }

/-- A world whose status endpoint always reports `"pending"`; signing and
broadcasting succeed, and any replay would return 200 with a body. -/
def wPend : World :=
  { sign := { success := true, signedTransaction := some "ab", error := none }
    broadcastHttp := { status := 200, body := "\"abc\"", bodyJson := none, headers := [] }
    broadcastFn := fun _ => .ok { txid := "abc", error := none, reason := none }
    poll := fun _ => .ok (some "pending")
    replay := fun _ => { status := 200, body := "ok", bodyJson := none, headers := [] } }

/-- Counterexample to C4: in the sBTC token-transfer flow an
always-pending status endpoint does NOT lead to an unconfirmed replay —
the attempt fails with "TX never confirmed within timeout" after the
36-iteration bound, with zero replays of the original request. -/
theorem sbtc_flow_always_pending_fails :
    (payV1 optSbtc wPend).1.success = false ∧
    (payV1 optSbtc wPend).1.error = some "TX never confirmed within timeout" ∧
    (payV1 optSbtc wPend).2.replays = 0 ∧
    (payV1 optSbtc wPend).2.polls = 36 := by
  refine ⟨by decide, by decide, by decide, by decide⟩

/-- C4 (amended): when the status poll always reports `"pending"`, the
simple-transfer flow exhausts its 12-poll bound, is flagged unconfirmed,
proceeds to exactly one replay of the request and returns the
replay-derived result (polling itself raises no error); but the shared
sBTC/contract-call loop exhausts its 36-iteration bound without any
replay and returns a failed result with error
"TX never confirmed within timeout" (carrying the broadcast tx id). -/
theorem polling_exhaustion_split
    (w₁ : World) (option₁ : SbtcPaymentOption)
    (h₁ : ∀ n, w₁.poll n = .ok (some "pending"))
    (hsig : (w₁.sign.success && jsTruthyStr w₁.sign.signedTransaction) = true)
    (hok : (decide (200 ≤ w₁.broadcastHttp.status) &&
      decide (w₁.broadcastHttp.status < 300)) = true)
    (w₂ : World) (txId : String) (option₂ : SbtcPaymentOption)
    (h₂ : ∀ n, w₂.poll n = .ok (some "pending")) :
    (payV1Simple option₁ w₁).2.confirmedFlag = false ∧
    (payV1Simple option₁ w₁).2.polls = 12 ∧
    (payV1Simple option₁ w₁).2.replays = 1 ∧
    (payV1Simple option₁ w₁).1 =
      { buildPayResult (w₁.replay 0) option₁ with
        txId := some (ensureHexPrefix ((w₁.broadcastHttp.body.replace "\"" "").trim)) } ∧
    (awaitConfirmationAndRetry txId option₂ w₂).1.success = false ∧
    (awaitConfirmationAndRetry txId option₂ w₂).1.error =
      some "TX never confirmed within timeout" ∧
    (awaitConfirmationAndRetry txId option₂ w₂).1.txId = some txId ∧
    (awaitConfirmationAndRetry txId option₂ w₂).2.replays = 0 ∧
    (awaitConfirmationAndRetry txId option₂ w₂).2.polls = 36 ∧
    (awaitConfirmationAndRetry txId option₂ w₂).2.confirmedFlag = false := by
  have hl := payV1PollLoop_pending w₁.poll h₁ 12 0
  have hl2 := acrLoop_pending w₂ h₂ 36 none 0 0
  refine ⟨?_, ?_, ?_, ?_, ?_, ?_, ?_, ?_, ?_, ?_⟩ <;>
    simp [payV1Simple, v1BroadcastTxId, awaitConfirmationAndRetry, hsig, hok,
      hl, hl2]

/-- Witness for C4's amended statement in the concrete always-pending
world. -/
theorem polling_exhaustion_split_witness :
    (payV1Simple optCap wPend).2.confirmedFlag = false ∧
    (payV1Simple optCap wPend).2.polls = 12 ∧
    (payV1Simple optCap wPend).2.replays = 1 ∧
    (awaitConfirmationAndRetry "0xabc" optSbtc wPend).1.success = false ∧
    (awaitConfirmationAndRetry "0xabc" optSbtc wPend).1.error =
      some "TX never confirmed within timeout" ∧
    (awaitConfirmationAndRetry "0xabc" optSbtc wPend).2.replays = 0 := by
  have h := polling_exhaustion_split wPend optCap (fun _ => rfl) (by decide)
    (by decide) wPend "0xabc" optSbtc (fun _ => rfl)
  exact ⟨h.1, h.2.1, h.2.2.1, h.2.2.2.2.1, h.2.2.2.2.2.1, h.2.2.2.2.2.2.2.1⟩

/-- The shared confirmation/replay helper always returns the broadcast tx
id in the result, whatever the replay response carried. -/
theorem acr_txId_eq (txId : String) (option : SbtcPaymentOption) (w : World) :
    (awaitConfirmationAndRetry txId option w).1.txId = some txId := by
  simp only [awaitConfirmationAndRetry]
  rcases h : (acrLoop w 36 false none 0 0).1 with _ | r <;> simp [h]

/-- A world whose replay response carries a settlement tx id header
different from the broadcast id. -/
def wHeader : World :=
  { sign := { success := true, signedTransaction := some "ab", error := none }
    broadcastHttp := { status := 200, body := "\"bbb\"", bodyJson := none, headers := [] }
    broadcastFn := fun _ => .ok { txid := "bbb", error := none, reason := none }
    poll := fun _ => .ok (some "success")
    replay := fun _ =>
      { status := 200, body := "ok", bodyJson := none,
        headers := [("x-payment-txid", "0xaaa")] } }

/-- Counterexample to C6: the endpoint's response header carries the
settlement id `0xaaa`, `buildPayResult` extracts it, but the sBTC flow
overwrites the returned tx id with the broadcast id `0xbbb`
unconditionally — the header id is not the one returned. -/
theorem txid_header_overwritten :
    (payV1 optSbtc wHeader).1.txId = some "0xbbb" ∧
    headerGet (wHeader.replay 0) "x-payment-txid" = some "0xaaa" ∧
    (buildPayResult (wHeader.replay 0) optSbtc).txId = some "0xaaa" ∧
    some "0xbbb" ≠ (some "0xaaa" : Option String) := by
  refine ⟨by decide, by decide, by decide, by decide⟩

/-- C6 (amended): `buildPayResult` extracts a settlement tx id from the
response headers first (`x-payment-txid`, then `x-transaction-id`), then
from the body fields, else leaves it null; but the broadcast-bearing
flows (`payV1` simple, sBTC, contract-call via
`awaitConfirmationAndRetry`) overwrite the returned result's tx id with
the broadcast id unconditionally; only the V2 flow returns the extracted
id. -/
theorem txid_priority_and_overwrite (res : HttpResponse)
    (option : SbtcPaymentOption) (j : Json) (s txId : String) (w : World)
    (option₂ : SbtcPaymentOption) :
    (jsTruthyStr (headerGet res "x-payment-txid") = true →
      (buildPayResult res option).txId = headerGet res "x-payment-txid") ∧
    (jsTruthyStr (headerGet res "x-payment-txid") = false →
      jsTruthyStr (headerGet res "x-transaction-id") = true →
      (buildPayResult res option).txId = headerGet res "x-transaction-id") ∧
    (jsTruthyStr (headerGet res "x-payment-txid") = false →
      jsTruthyStr (headerGet res "x-transaction-id") = false →
      res.bodyJson = some j → truthyField j "txId" = some s →
      (buildPayResult res option).txId = some s) ∧
    (jsTruthyStr (headerGet res "x-payment-txid") = false →
      jsTruthyStr (headerGet res "x-transaction-id") = false →
      res.bodyJson = none →
      (buildPayResult res option).txId = none) ∧
    ((awaitConfirmationAndRetry txId option₂ w).1.txId = some txId) ∧
    ((w.sign.success && jsTruthyStr w.sign.signedTransaction) = true →
      (payV2 option₂ w).1.txId = (buildPayResult (w.replay 0) option₂).txId) := by
  refine ⟨?_, ?_, ?_, ?_, acr_txId_eq txId option₂ w, ?_⟩
  · intro h1
    simp [buildPayResult, jsOrOptStr, h1]
  · intro h1 h2
    simp [buildPayResult, jsOrOptStr, h1, h2]
  · intro h1 h2 hb hf
    simp [buildPayResult, jsOrOptStr, h1, h2, hb, hf]
  · intro h1 h2 hb
    simp [buildPayResult, jsOrOptStr, h1, h2, hb]
  · intro hs
    simp [payV2, hs]

/-- The replay response of `wHeader` (header id `0xaaa`). -/
def resHdr : HttpResponse :=
  { status := 200, body := "ok", bodyJson := none,
    headers := [("x-payment-txid", "0xaaa")] }

/-- Witness for C6's amended statement: header extraction, the overwrite
in the shared loop, and the V2 pass-through, at concrete inputs. -/
theorem txid_priority_and_overwrite_witness :
    (buildPayResult resHdr optSbtc).txId = headerGet resHdr "x-payment-txid" ∧
    (awaitConfirmationAndRetry "0xbb" optSbtc worldDflt).1.txId = some "0xbb" ∧
    (payV2 optSbtc worldDflt).1.txId =
      (buildPayResult (worldDflt.replay 0) optSbtc).txId := by
  have h := txid_priority_and_overwrite resHdr optSbtc Json.null "" "0xbb"
    worldDflt optSbtc
  exact ⟨h.1 (by decide), h.2.2.2.2.1, h.2.2.2.2.2 (by decide)⟩

/-- The prefix-normalization step yields a `0x`-prefixed string whenever
its result is non-empty. -/
theorem ensureHexPrefix_prefixed (t : String) (h : ensureHexPrefix t ≠ "") :
    jsStartsWith (ensureHexPrefix t) "0x" = true := by
  unfold ensureHexPrefix at h ⊢
  by_cases h0 : t = ""
  · simp [h0] at h
  · by_cases hp : jsStartsWith t "0x" = false
    · rw [if_pos ⟨h0, hp⟩]
      simp only [jsStartsWith, decide_eq_true_eq]
      have hdata : ("0x" ++ t).toList = ("0x").toList ++ t.toList := by
        simp [String.toList]
      rw [hdata]
      exact List.prefix_append _ _
    · have hp' : jsStartsWith t "0x" = true := by
        revert hp; cases jsStartsWith t "0x" <;> simp
      rw [if_neg (by simp [hp'])]
      exact hp'

/-- The contract-call flow only returns a non-null tx id through the
shared loop, where it is the prefix-normalized broadcast id. -/
theorem payV1ContractCall_txid_prefixed (option : SbtcPaymentOption) (w : World)
    (s : String) (h : (payV1ContractCall option w).1.txId = some s)
    (hs : s ≠ "") : jsStartsWith s "0x" = true := by
  unfold payV1ContractCall at h
  by_cases he : jsTruthyStr (broadcastWithRetry w.broadcastFn).result.error = true
  · simp [he, failResult] at h
  · have he' : jsTruthyStr (broadcastWithRetry w.broadcastFn).result.error = false := by
      revert he; cases jsTruthyStr (broadcastWithRetry w.broadcastFn).result.error <;> simp
    simp only [he', Bool.false_eq_true, if_false, acr_txId_eq,
      Option.some.injEq] at h
    subst h
    exact ensureHexPrefix_prefixed _ hs

/-- The sBTC SIP-010 flow only returns a non-null tx id through the shared
loop, where it is the prefix-normalized broadcast id. -/
theorem payV1Sbtc_txid_prefixed (option : SbtcPaymentOption) (w : World)
    (s : String) (h : (payV1Sbtc option w).1.txId = some s)
    (hs : s ≠ "") : jsStartsWith s "0x" = true := by
  unfold payV1Sbtc at h
  by_cases he : jsTruthyStr (broadcastWithRetry w.broadcastFn).result.error = true
  · simp [he, failResult] at h
  · have he' : jsTruthyStr (broadcastWithRetry w.broadcastFn).result.error = false := by
      revert he; cases jsTruthyStr (broadcastWithRetry w.broadcastFn).result.error <;> simp
    simp only [he', Bool.false_eq_true, if_false, acr_txId_eq,
      Option.some.injEq] at h
    subst h
    exact ensureHexPrefix_prefixed _ hs

/-- The simple-transfer flow only returns a non-null tx id after prefix
normalization of the broadcast id. -/
theorem payV1Simple_txid_prefixed (option : SbtcPaymentOption) (w : World)
    (s : String) (h : (payV1Simple option w).1.txId = some s)
    (hs : s ≠ "") : jsStartsWith s "0x" = true := by
  unfold payV1Simple at h
  by_cases hsig : (w.sign.success && jsTruthyStr w.sign.signedTransaction) = true
  · rcases hb : v1BroadcastTxId w.broadcastHttp with _ | t
    · simp [hsig, hb, failResult] at h
    · simp only [hsig, not_true_eq_false, if_false, hb,
        Option.some.injEq] at h
      subst h
      exact ensureHexPrefix_prefixed _ hs
  · have hsig' : (w.sign.success && jsTruthyStr w.sign.signedTransaction) = false := by
      revert hsig; cases (w.sign.success && jsTruthyStr w.sign.signedTransaction) <;> simp
    simp [hsig', failResult] at h

/-- C8 (amended): in the three local-broadcast v1 flows (simple transfer,
sBTC token transfer, contract call) every non-null, non-empty transaction
id in the returned `PayResult` is `0x`-prefixed; the V2 flow, by
contrast, passes through ids extracted from the endpoint's response
without normalization. -/
theorem payV1_txid_prefixed (option : SbtcPaymentOption) (w : World)
    (s : String) (h : (payV1 option w).1.txId = some s) (hs : s ≠ "") :
    jsStartsWith s "0x" = true := by
  unfold payV1 at h
  by_cases hc : option.contractCall.isSome = true
  · rw [if_pos hc] at h
    exact payV1ContractCall_txid_prefixed option w s h hs
  · rw [if_neg hc] at h
    by_cases ht : isSbtcToken option.tokenType = true
    · rw [if_pos ht] at h
      exact payV1Sbtc_txid_prefixed option w s h hs
    · rw [if_neg ht] at h
      exact payV1Simple_txid_prefixed option w s h hs

/-- Witness for C8's amended statement: the concrete sBTC flow returns
`0xbbb`, which is `0x`-prefixed. -/
theorem payV1_txid_prefixed_witness :
    (payV1 optSbtc wHeader).1.txId = some "0xbbb" ∧
    jsStartsWith "0xbbb" "0x" = true :=
  ⟨by decide, payV1_txid_prefixed optSbtc wHeader "0xbbb" (by decide) (by decide)⟩

/-- A v2 payment option. -/
def optV2 : SbtcPaymentOption :=
  { version := "v2"
    amount := "100"
    payTo := "SPB"
    network := "stacks:1"
    facilitatorUrl := "f"
    tokenType := "sBTC"
    raw := .v2 optB
    contractCall := none }

/-- A world whose replay response reports an unprefixed settlement id. -/
def wHdrPlain : World :=
  { sign := { success := true, signedTransaction := some "ab", error := none }
    broadcastHttp := { status := 200, body := "\"bbb\"", bodyJson := none, headers := [] }
    broadcastFn := fun _ => .ok { txid := "bbb", error := none, reason := none }
    poll := fun _ => .ok (some "success")
    replay := fun _ =>
      { status := 200, body := "ok", bodyJson := none,
        headers := [("x-payment-txid", "abc")] } }

/-- Counterexample to C8: the full V2 payment flow returns the tx id
`"abc"` taken from the response header — present (non-null) but not in
the canonical `0x`-prefixed form. -/
theorem v2_txid_not_prefixed :
    (payEndpoint optV2 cfgCap wHdrPlain).1.txId = some "abc" ∧
    jsStartsWith "abc" "0x" = false := by
  refine ⟨by decide, by decide⟩

/-- Every `PayResult` built by `buildPayResult` reports the option's
amount. -/
theorem buildPayResult_amount (res : HttpResponse) (option : SbtcPaymentOption) :
    (buildPayResult res option).amount = option.amount := by
  simp [buildPayResult]

/-- The shared confirmation/replay helper reports the option's amount. -/
theorem acr_amount (txId : String) (option : SbtcPaymentOption) (w : World) :
    (awaitConfirmationAndRetry txId option w).1.amount = option.amount := by
  simp only [awaitConfirmationAndRetry]
  rcases h : (acrLoop w 36 false none 0 0).1 with _ | r <;>
    simp [h, buildPayResult]

/-- Every payment flow reports the option's amount in its result. -/
theorem payEndpoint_amount (option : SbtcPaymentOption) (config : Config)
    (w : World) : (payEndpoint option config w).1.amount = option.amount := by
  have hps : (payV1Simple option w).1.amount = option.amount := by
    unfold payV1Simple
    by_cases hsig : (w.sign.success && jsTruthyStr w.sign.signedTransaction) = true
    · rcases hb : v1BroadcastTxId w.broadcastHttp with _ | t <;>
        simp [hsig, hb, failResult, buildPayResult]
    · have hsig' : (w.sign.success && jsTruthyStr w.sign.signedTransaction) = false := by
        revert hsig
        cases (w.sign.success && jsTruthyStr w.sign.signedTransaction) <;> simp
      simp [hsig', failResult]
  have hcc : (payV1ContractCall option w).1.amount = option.amount := by
    unfold payV1ContractCall
    by_cases he : jsTruthyStr (broadcastWithRetry w.broadcastFn).result.error = true
    · simp [he, failResult]
    · have he' : jsTruthyStr (broadcastWithRetry w.broadcastFn).result.error = false := by
        revert he
        cases jsTruthyStr (broadcastWithRetry w.broadcastFn).result.error <;> simp
      simp [he', acr_amount]
  have hsb : (payV1Sbtc option w).1.amount = option.amount := by
    unfold payV1Sbtc
    by_cases he : jsTruthyStr (broadcastWithRetry w.broadcastFn).result.error = true
    · simp [he, failResult]
    · have he' : jsTruthyStr (broadcastWithRetry w.broadcastFn).result.error = false := by
        revert he
        cases jsTruthyStr (broadcastWithRetry w.broadcastFn).result.error <;> simp
      simp [he', acr_amount]
  have hv2 : (payV2 option w).1.amount = option.amount := by
    unfold payV2
    by_cases hsig : (w.sign.success && jsTruthyStr w.sign.signedTransaction) = true
    · simp [hsig, buildPayResult]
    · have hsig' : (w.sign.success && jsTruthyStr w.sign.signedTransaction) = false := by
        revert hsig
        cases (w.sign.success && jsTruthyStr w.sign.signedTransaction) <;> simp
      simp [hsig', failResult]
  have hv1 : (payV1 option w).1.amount = option.amount := by
    unfold payV1
    by_cases hc : option.contractCall.isSome = true
    · simp [hc, hcc]
    · by_cases ht : isSbtcToken option.tokenType = true <;>
        simp [hc, ht, hsb, hps]
  unfold payEndpoint
  rcases hp : parseIntJs option.amount with _ | n
  · by_cases hver : (option.version == "v1") = true <;> simp [hver, hv1, hv2]
  · by_cases hgt : n > config.maxSbtcPerVerify
    · simp [hgt, failResult]
    · by_cases hver : (option.version == "v1") = true <;> simp [hgt, hver, hv1, hv2]

/-- A probe result offering a negative advertised amount (taken verbatim
from a malicious 402 body). -/
def optNeg : SbtcPaymentOption :=
  { version := "v1"
    amount := "-5"
    payTo := "SPB"
    network := "stacks:1"
    facilitatorUrl := "f"
    tokenType := "STX"
    raw := .v1 ⟨"-5", "/x", "SPB", "mainnet", "1", "2099-01-01", "STX"⟩
    contractCall := none }

/-- A structurally valid probe carrying `optNeg`. -/
def probeNeg : ProbeResult :=
  { success := true
    version := some "v1"
    sbtcOption := some optNeg
    allAccepts := none
    httpStatus := 402 }

/-- A ledger row with 100 sats of recorded spend. -/
def epSpent : Endpoint :=
  { url := "https://api.example.com/data", status := "monitoring",
    total_spent := some 100 }

/-- Counterexample to C9: a successful payment whose advertised amount is
the string `"-5"` (which the cap guard does not reject, since
`-5 > cap` is false) decrements `total_spent` from 100 to 95 — the
cumulative spend is not monotonically non-decreasing. -/
theorem total_spent_can_decrease :
    (checkEndpoint epSpent cfgCap false probeNeg worldDflt).1 = true ∧
    (checkEndpoint epSpent cfgCap false probeNeg worldDflt).2.total_spent = some 95 ∧
    epSpent.total_spent = some 100 ∧ (95 : Int) < 100 := by
  refine ⟨by decide, by decide, by decide, by decide⟩

/-- C9 (amended): the monitor's status updates never change
`total_spent`; the check updates it only on a successful payment, adding
`parseInt(amount || "0")`; whenever every offered amount parses to a
non-negative integer, `total_spent` is monotonically non-decreasing
(and it is exactly incremented by the parsed amount on success). -/
theorem total_spent_monotone_nonneg (ep : Endpoint) (config : Config)
    (dryRun : Bool) (probeRes : ProbeResult) (w : World) (now : String)
    (passed : Bool) (t : Int) (ht : ep.total_spent = some t)
    (hamt : ∀ opt, probeRes.sbtcOption = some opt →
      ∃ n : Int, 0 ≤ n ∧ parseIntJs (jsOrStr (some opt.amount) "0") = some n) :
    (∀ u, (checkEndpoint ep config dryRun probeRes w).2.total_spent = some u →
      t ≤ u) ∧
    (monitorStep ep now passed).1.total_spent = ep.total_spent := by
  constructor
  · intro u hu
    unfold checkEndpoint at hu
    by_cases hps : probeRes.success = true
    · by_cases hdk : dryRun = true ∨ jsTruthyStr (some config.privateKey) = false
      · simp [hps, hdk, ht] at hu
        omega
      · rcases hso : probeRes.sbtcOption with _ | opt
        · simp [hps, hdk, hso, ht] at hu
          omega
        · obtain ⟨n, hn0, hn⟩ := hamt opt hso
          by_cases hsucc : (payEndpoint opt config w).1.success = true
          · have hamount := payEndpoint_amount opt config w
            simp [hps, hdk, hso, hsucc, spendAdd, hamount, hn, ht] at hu
            omega
          · have hsucc' : (payEndpoint opt config w).1.success = false := by
              revert hsucc; cases (payEndpoint opt config w).1.success <;> simp
            simp [hps, hdk, hso, hsucc', ht] at hu
            omega
    · have hps' : probeRes.success = false := by
        revert hps; cases probeRes.success <;> simp
      simp [hps', ht] at hu
      omega
  · unfold monitorStep
    by_cases hp : passed = true <;> cases passed <;> simp

/-- A probe offering the amount `"7"`. -/
def optPos : SbtcPaymentOption :=
  { version := "v1"
    amount := "7"
    payTo := "SPB"
    network := "stacks:1"
    facilitatorUrl := "f"
    tokenType := "STX"
    raw := .v1 ⟨"7", "/x", "SPB", "mainnet", "1", "2099-01-01", "STX"⟩
    contractCall := none }

/-- A structurally valid probe carrying `optPos`. -/
def probePos : ProbeResult :=
  { success := true
    version := some "v1"
    sbtcOption := some optPos
    allAccepts := none
    httpStatus := 402 }

/-- Witness for C9's amended statement at the concrete 7-sat offer. -/
theorem total_spent_monotone_nonneg_witness :
    (∀ u, (checkEndpoint epSpent cfgCap false probePos worldDflt).2.total_spent =
      some u → (100 : Int) ≤ u) ∧
    (monitorStep epSpent "t" true).1.total_spent = epSpent.total_spent := by
  refine total_spent_monotone_nonneg epSpent cfgCap false probePos worldDflt
    "t" true 100 rfl ?_
  intro opt hopt
  have heq : optPos = opt := Option.some.inj hopt
  refine ⟨7, by decide, ?_⟩
  rw [← heq]
  decide

end Appleseed
